import Mathlib

/-!
Shallow embedding of `src/controllers/bookController.js` from the
Online-library-management-system repository.

JavaScript values are modelled as follows: request-body fields that may be
absent become `Option` types; JS string truthiness (`""` is falsy) and number
truthiness (`0` is falsy) are modelled explicitly; Mongo/Mongoose ids are
`String`s; timestamps are milliseconds since epoch (`Nat`); copy counters and
fines are `Int` (JS numbers used as integers).  Each controller becomes a pure
function from its inputs and the store state to a result that carries the HTTP
outcome and the new state; an early `return res.status(...)` in the source
corresponds to a constructor that carries no mutated state.
-/

/-- A Book document, mirroring the fields the controller reads and writes. -/
structure Book where
  id : String
  title : String
  author : String
  category : String
  isbn : String
  description : String
  bookImage : Option String
  totalCopies : Int
  availableCopies : Int
  status : String
  borrower : Option String
  borrowedAt : Option Nat
  dueDate : Option Nat
  deriving Repr, DecidableEq

/-- A Borrow ledger document (`models/Borrow`), as used by the controller. -/
structure BorrowRec where
  id : String
  user : String
  book : String
  borrowedAt : Nat
  dueDate : Nat
  returnedAt : Option Nat
  fine : Int
  deriving Repr, DecidableEq

/-- The durable state: the Book collection and the Borrow ledger. -/
structure LibState where
  books : List Book
  ledger : List BorrowRec
  deriving Repr, DecidableEq

/-- JS falsiness of a possibly-absent string field: absent or `""`. -/
def strFalsy : Option String → Bool
  | none => true
  | some s => s = ""

/-- JS falsiness of a possibly-absent numeric field: absent or `0`. -/
def numFalsy : Option Int → Bool
  | none => true
  | some n => n = 0

/-- `x || old` on a string field of a partial update (truthy overwrites). -/
def orKeepStr (v : Option String) (old : String) : String :=
  match v with
  | some s => if s = "" then old else s
  | none => old

/-- The request body of `addBook` (multipart file reference included). -/
structure AddInput where
  title : Option String
  author : Option String
  category : Option String
  isbn : Option String
  description : Option String
  availableCopies : Option Int
  totalCopies : Option Int
  file : Option String
  deriving Repr

/-- Result of `addBook`: 400 validation failure, or 201 with the saved book. -/
inductive AddResult where
  | validationError
  | created (b : Book)
  deriving Repr, DecidableEq

/-- `addBook` (bookController.js lines 10–46): requires truthy
title/author/category/isbn/totalCopies, defaults `description` to `""`,
sets `availableCopies` to `availableCopies || totalCopies`, and saves.
The saved document's `status`/`borrower`/`borrowedAt`/`dueDate` are not set by
the controller; the schema (`models/Book.js`, not under src/) is modelled from
the spec: `status` enum Available | Borrowed with the fresh book Available and
the borrow fields unset. -/
def addBook (inp : AddInput) (newId : String) : AddResult :=
  if strFalsy inp.title || strFalsy inp.author || strFalsy inp.category
      || strFalsy inp.isbn || numFalsy inp.totalCopies then
    .validationError
  else
    let total := inp.totalCopies.getD 0
    .created
      { id := newId
        title := inp.title.getD ""
        author := inp.author.getD ""
        category := inp.category.getD ""
        isbn := inp.isbn.getD ""
        description := inp.description.getD ""
        bookImage := inp.file.map (fun f => "/uploads/" ++ f)
        totalCopies := total
        availableCopies :=
          match inp.availableCopies with
          | some a => if a = 0 then total else a
          | none => total
        status := "Available"
        borrower := none
        borrowedAt := none
        dueDate := none }

/-- The request body of `updateBook`: every field optional. -/
structure UpdateInput where
  title : Option String
  author : Option String
  category : Option String
  isbn : Option String
  description : Option String
  availableCopies : Option Int
  totalCopies : Option Int
  file : Option String
  deriving Repr

/-- The field-merge step of `updateBook` (lines 90–100): `||` keep-if-falsy on
title/author/category/isbn, `!== undefined` presence test on description,
`??` on availableCopies/totalCopies, and image replacement if a file came. -/
def applyUpdate (book : Book) (inp : UpdateInput) : Book :=
  { book with
    title := orKeepStr inp.title book.title
    author := orKeepStr inp.author book.author
    category := orKeepStr inp.category book.category
    isbn := orKeepStr inp.isbn book.isbn
    description := inp.description.getD book.description
    availableCopies := inp.availableCopies.getD book.availableCopies
    totalCopies := inp.totalCopies.getD book.totalCopies
    bookImage :=
      match inp.file with
      | some f => some ("/uploads/" ++ f)
      | none => book.bookImage }

/-- `book.borrower && book.borrower.toString() === user._id.toString()`:
true only when a borrower is recorded and it is this user. -/
def borrowerIs (book : Book) (user : String) : Bool :=
  match book.borrower with
  | some b => b = user
  | none => false

/-- One day in milliseconds, as in `1000 * 60 * 60 * 24`. -/
def msPerDay : Nat := 1000 * 60 * 60 * 24

/-- Seven days in milliseconds, as in `7 * 24 * 60 * 60 * 1000`. -/
def sevenDaysMs : Nat := 7 * 24 * 60 * 60 * 1000

/-- Result of the borrow transition once the book was found (lines 134–167). -/
inductive BorrowResult where
  | unavailable
  | alreadyBorrowed
  | success (book : Book) (record : BorrowRec)
  deriving Repr, DecidableEq

/-- `borrowBook` body after `findById` (lines 134–158): unavailable when
`status === 'Borrowed' || availableCopies === 0`; already-borrowed when the
recorded borrower equals the requesting user; otherwise mutate the book and
create the ledger record. -/
def borrowBook (book : Book) (user : String) (now : Nat) (recId : String) :
    BorrowResult :=
  if book.status = "Borrowed" ∨ book.availableCopies = 0 then
    .unavailable
  else if borrowerIs book user then
    .alreadyBorrowed
  else
    let due := now + sevenDaysMs
    let book' :=
      { book with
        status := "Borrowed"
        borrower := some user
        borrowedAt := some now
        dueDate := some due
        availableCopies := book.availableCopies - 1 }
    .success book'
      { id := recId
        user := user
        book := book.id
        borrowedAt := now
        dueDate := due
        returnedAt := none
        fine := 0 }

/-- The fine computation of `returnBook` (lines 185–191): zero unless the book
has a due date strictly in the past, else `Math.ceil((now - due) / msPerDay)`
days late at 5 currency units per day. -/
def computeFine (dueDate : Option Nat) (now : Nat) : Int :=
  match dueDate with
  | some d =>
      if d < now then ((now - d + (msPerDay - 1)) / msPerDay : Nat) * 5
      else 0
  | none => 0

/-- `Borrow.findOne({book, user, returnedAt: null})` followed by the in-place
save (lines 194–204): the first open record for the pair gets `returnedAt`
and `fine` set; later records and non-matching records are untouched. -/
def closeOpenRecord (ledger : List BorrowRec) (bookId user : String)
    (now : Nat) (fine : Int) : List BorrowRec :=
  match ledger with
  | [] => []
  | r :: rs =>
      if r.book = bookId ∧ r.user = user ∧ r.returnedAt = none then
        { r with returnedAt := some now, fine := fine } :: rs
      else r :: closeOpenRecord rs bookId user now fine

/-- Whether the ledger holds an open record for this (book, user) pair. -/
def hasOpenRecord (ledger : List BorrowRec) (bookId user : String) : Bool :=
  ledger.any (fun r => r.book = bookId && r.user = user && r.returnedAt.isNone)

/-- Result of the return transition once the book was found (lines 180–218). -/
inductive ReturnResult where
  | notBorrowedByUser
  | success (book : Book) (ledger : List BorrowRec) (fine : Int) (message : String)
  deriving Repr, DecidableEq

/-- `returnBook` body after `findById` (lines 180–218): reject when the
recorded borrower is absent or differs from the requester; otherwise compute
the fine, close the open ledger record if one exists, always reset the book
(Available, cleared borrow fields, incremented availableCopies), and report
either the formatted fine message or "No fine applied". -/
def returnBook (book : Book) (ledger : List BorrowRec) (user : String)
    (now : Nat) : ReturnResult :=
  if borrowerIs book user then
    let fine := computeFine book.dueDate now
    let ledger' := closeOpenRecord ledger book.id user now fine
    let book' :=
      { book with
        status := "Available"
        borrower := none
        borrowedAt := none
        dueDate := none
        availableCopies := book.availableCopies + 1 }
    .success book' ledger' fine
      (if fine > 0 then s!"₹{fine} has been applied for late return"
       else "No fine applied")
  else
    .notBorrowedByUser

/-- `mongoose.Types.ObjectId.isValid` on a string id.  Modelled from the spec:
mongoose (an external collaborator, not under src/) accepts exactly a
well-formed hexadecimal ObjectId string, modelled as 24 hex digits. -/
def isValidObjectId (id : String) : Bool :=
  id.length = 24 && id.toList.all (fun c => c.isDigit || ("abcdefABCDEF".toList.contains c))

/-- `Book.findById` resolving against the collection. -/
def findBook (books : List Book) (id : String) : Option Book :=
  books.find? (fun b => b.id = id)

/-- `book.save()`: replace the stored document with the mutated one. -/
def saveBook (books : List Book) (b : Book) : List Book :=
  books.map (fun x => if x.id = b.id then b else x)

/-- `book.deleteOne()`: remove the document. -/
def removeBook (books : List Book) (id : String) : List Book :=
  books.filter (fun b => b.id ≠ id)

/-- The HTTP outcome a controller reports, one constructor per response the
source can produce on each route. -/
inductive Outcome where
  | ok
  | createdRec
  | validationError
  | invalidId
  | notFound
  | unavailable
  | alreadyBorrowed
  | notBorrowedByUser
  | storeError
  deriving Repr, DecidableEq

/-- `getBookById` (lines 63–78): the only controller that checks
`ObjectId.isValid` before querying (400 Invalid Book ID); then 404 or 200. -/
def getBookByIdCtrl (books : List Book) (id : String) : Outcome :=
  if ¬ isValidObjectId id then .invalidId
  else
    match findBook books id with
    | none => .notFound
    | some _ => .ok

/-- `updateBook` (lines 83–107): `findById` without a validity check — a
malformed id makes the store query throw a CastError, caught as a 500. -/
def updateBookCtrl (s : LibState) (id : String) (inp : UpdateInput) :
    LibState × Outcome :=
  if ¬ isValidObjectId id then (s, .storeError)
  else
    match findBook s.books id with
    | none => (s, .notFound)
    | some book =>
        let book' := applyUpdate book inp
        ({ s with books := saveBook s.books book' }, .ok)

/-- `deleteBook` (lines 112–122): same unchecked `findById`, then delete. -/
def deleteBookCtrl (s : LibState) (id : String) : LibState × Outcome :=
  if ¬ isValidObjectId id then (s, .storeError)
  else
    match findBook s.books id with
    | none => (s, .notFound)
    | some _ => ({ s with books := removeBook s.books id }, .ok)

/-- `borrowBook` (lines 127–171): unchecked `findById`, then the borrow
transition; only the success branch writes the book and the new record. -/
def borrowBookCtrl (s : LibState) (id user : String) (now : Nat)
    (recId : String) : LibState × Outcome :=
  if ¬ isValidObjectId id then (s, .storeError)
  else
    match findBook s.books id with
    | none => (s, .notFound)
    | some book =>
        match borrowBook book user now recId with
        | .unavailable => (s, .unavailable)
        | .alreadyBorrowed => (s, .alreadyBorrowed)
        | .success book' rec =>
            ({ books := saveBook s.books book', ledger := s.ledger ++ [rec] }, .ok)

/-- `returnBook` (lines 173–222): unchecked `findById`, then the return
transition; the success branch writes the reset book and the closed record. -/
def returnBookCtrl (s : LibState) (id user : String) (now : Nat) :
    LibState × Outcome :=
  if ¬ isValidObjectId id then (s, .storeError)
  else
    match findBook s.books id with
    | none => (s, .notFound)
    | some book =>
        match returnBook book s.ledger user now with
        | .notBorrowedByUser => (s, .notBorrowedByUser)
        | .success book' ledger' _ _ =>
            ({ books := saveBook s.books book', ledger := ledger' }, .ok)

/-- Lower-case a string character by character (for the `i` regex option). -/
def lowerStr (s : String) : String :=
  String.mk (s.toList.map Char.toLower)

/-- Whether `needle` occurs as a contiguous run at the head of `hay`. -/
def charsStartWith : List Char → List Char → Bool
  | [], _ => true
  | _ :: _, [] => false
  | a :: as, b :: bs => a = b && charsStartWith as bs

/-- Whether `needle` occurs as a contiguous run anywhere in `hay`. -/
def charsContain (needle hay : List Char) : Bool :=
  match hay with
  | [] => charsStartWith needle []
  | _ :: hs => charsStartWith needle hay || charsContain needle hs

/-- `{ $regex: search, $options: 'i' }` on a plain (metacharacter-free)
pattern: case-insensitive substring test. -/
def containsCI (hay needle : String) : Bool :=
  charsContain (lowerStr needle).toList (lowerStr hay).toList

/-- The query-string parameters of `getBooks`. -/
structure BooksQuery where
  search : Option String
  category : Option String
  author : Option String
  status : Option String
  page : Option Nat
  limit : Option Nat
  deriving Repr

/-- The Mongo query object built at lines 232–250: a truthy `search` adds an
`$or` of case-insensitive regexes over title/author/category, and truthy
category/author/status add exact-match conditions, all ANDed. -/
def matchesQuery (q : BooksQuery) (b : Book) : Bool :=
  (if strFalsy q.search then true
   else
     let s := q.search.getD ""
     containsCI b.title s || containsCI b.author s || containsCI b.category s)
  && (if strFalsy q.category then true else b.category = q.category.getD "")
  && (if strFalsy q.author then true else b.author = q.author.getD "")
  && (if strFalsy q.status then true else b.status = q.status.getD "")

/-- The JSON body `getBooks` responds with (lines 258–263). -/
structure BooksPage where
  totalBooks : Nat
  currentPage : Nat
  totalPages : Nat
  books : List Book
  deriving Repr, DecidableEq

/-- `getBooks` (lines 227–267): page defaults to 1 and limit to 10, the page
slice is `skip = (page-1)*limit` then `limit` items, `totalBooks` counts every
match and `totalPages = Math.ceil(totalBooks / limit)`. -/
def getBooks (books : List Book) (q : BooksQuery) : BooksPage :=
  let page := q.page.getD 1
  let limit := q.limit.getD 10
  let found := books.filter (matchesQuery q)
  let skip := (page - 1) * limit
  { totalBooks := found.length
    currentPage := page
    totalPages := (found.length + (limit - 1)) / limit
    books := (found.drop skip).take limit }

/-- One element of the `getUserHistory` response array (lines 286–300). -/
structure HistEntry where
  id : String
  bookId : String
  title : String
  author : String
  category : String
  status : String
  borrowedAt : Nat
  dueDate : Nat
  returnedAt : Option Nat
  fine : Int
  deriving Repr, DecidableEq

/-- `.sort({ borrowedAt: -1 })`: newest first (insertion sort, descending). -/
def insertByBorrowedAtDesc (r : BorrowRec) : List BorrowRec → List BorrowRec
  | [] => [r]
  | x :: xs =>
      if x.borrowedAt ≤ r.borrowedAt then r :: x :: xs
      else x :: insertByBorrowedAtDesc r xs

/-- Sort a ledger newest-borrowed first. -/
def sortByBorrowedAtDesc : List BorrowRec → List BorrowRec
  | [] => []
  | r :: rs => insertByBorrowedAtDesc r (sortByBorrowedAtDesc rs)

/-- `getUserHistory` (lines 272–307): all Borrow records of the user, newest
first, each mapped through `record.book._id` / `.title` / `.author` /
`.category` after `.populate('book', ...)`.  When the referenced Book no
longer exists, `populate` yields `null` and the property access throws a
TypeError, which the catch block turns into a 500 — modelled as `.error`. -/
def getUserHistory (ledger : List BorrowRec) (books : List Book)
    (user : String) : Except String (List HistEntry) :=
  let recs := sortByBorrowedAtDesc (ledger.filter (fun r => r.user = user))
  recs.mapM fun r =>
    match findBook books r.book with
    | none => .error "TypeError: Cannot read properties of null"
    | some b =>
        .ok { id := r.id
              bookId := b.id
              title := b.title
              author := b.author
              category := b.category
              status := if r.returnedAt.isSome then "Returned" else "Borrowed"
              borrowedAt := r.borrowedAt
              dueDate := r.dueDate
              returnedAt := r.returnedAt
              fine := r.fine }

/-! ## Sample documents used to instantiate the theorems -/

/-- A well-formed ObjectId string. -/
def sampleId : String := "aaaaaaaaaaaaaaaaaaaaaaaa"

/-- A stored book currently borrowed by user `u1`. -/
def borrowedSample : Book :=
  { id := sampleId, title := "T", author := "A", category := "C",
    isbn := "i", description := "", bookImage := none, totalCopies := 2,
    availableCopies := 1, status := "Borrowed", borrower := some "u1",
    borrowedAt := some 0, dueDate := some 100 }

/-- A stored book that is available and unborrowed. -/
def freeSample : Book :=
  { id := sampleId, title := "T", author := "A", category := "C",
    isbn := "i", description := "", bookImage := none, totalCopies := 2,
    availableCopies := 2, status := "Available", borrower := none,
    borrowedAt := none, dueDate := none }

/-! ## Theorems -/

/-- When the ledger holds no open record for the pair, the in-place close of
`returnBook` is a no-op on the ledger. -/
theorem closeOpenRecord_no_match (ledger : List BorrowRec) (bid u : String)
    (now : Nat) (f : Int) (h : hasOpenRecord ledger bid u = false) :
    closeOpenRecord ledger bid u now f = ledger := by
  induction ledger with
  | nil => rfl
  | cons r rs ih =>
      simp only [hasOpenRecord, List.any_cons, Bool.or_eq_false_iff] at h
      obtain ⟨h1, h2⟩ := h
      rw [closeOpenRecord, if_neg, ih]
      · simpa [hasOpenRecord] using h2
      · rintro ⟨ha, hb, hc⟩
        simp [ha, hb, hc] at h1

/-- C1 (counterexample to the claim as stated): `borrowedSample` records
borrower `u1`, yet a Borrow request by `u1` fails with the Unavailable error
("Book is currently unavailable"), not AlreadyBorrowed, because the
`status === 'Borrowed' || availableCopies === 0` check runs first. -/
theorem c1_counterexample :
    borrowedSample.borrower = some "u1" ∧
    borrowBook borrowedSample "u1" 0 "r1" = BorrowResult.unavailable ∧
    BorrowResult.unavailable ≠ BorrowResult.alreadyBorrowed :=
  ⟨rfl, rfl, by decide⟩

/-- C1 (amended): whenever the stored book's recorded borrower equals the
requesting user, the Borrow request fails and leaves the Book collection and
the Borrow ledger unchanged; the error is AlreadyBorrowed exactly when the
book's status is not `Borrowed` and `availableCopies` is nonzero, and
Unavailable otherwise. -/
theorem c1_borrow_by_recorded_borrower (s : LibState) (id u : String)
    (now : Nat) (rid : String) (book : Book)
    (hid : isValidObjectId id = true)
    (hfind : findBook s.books id = some book)
    (hbor : book.borrower = some u) :
    (borrowBookCtrl s id u now rid).1 = s ∧
    ((borrowBookCtrl s id u now rid).2 = Outcome.unavailable ∨
      (borrowBookCtrl s id u now rid).2 = Outcome.alreadyBorrowed) ∧
    ((borrowBookCtrl s id u now rid).2 = Outcome.alreadyBorrowed ↔
      (book.status ≠ "Borrowed" ∧ book.availableCopies ≠ 0)) := by
  have hbis : borrowerIs book u = true := by simp [borrowerIs, hbor]
  by_cases hc : book.status = "Borrowed" ∨ book.availableCopies = 0
  · have hres : borrowBook book u now rid = BorrowResult.unavailable := by
      rw [borrowBook, if_pos hc]
    have hctrl : borrowBookCtrl s id u now rid = (s, Outcome.unavailable) := by
      rw [borrowBookCtrl]
      simp [hid, hfind, hres]
    rw [hctrl]
    refine ⟨rfl, Or.inl rfl, ?_, ?_⟩
    · intro habs
      simp at habs
    · rintro ⟨hs, ha⟩
      rcases hc with hc | hc
      · exact absurd hc hs
      · exact absurd hc ha
  · have hres : borrowBook book u now rid = BorrowResult.alreadyBorrowed := by
      rw [borrowBook, if_neg hc, if_pos hbis]
    have hctrl : borrowBookCtrl s id u now rid = (s, Outcome.alreadyBorrowed) := by
      rw [borrowBookCtrl]
      simp [hid, hfind, hres]
    rw [hctrl]
    push_neg at hc
    exact ⟨rfl, Or.inr rfl, fun _ => hc, fun _ => rfl⟩

/-- C1 (witness): the amended theorem applied to a store holding
`borrowedSample`, requested by its recorded borrower `u1`. -/
theorem c1_witness :
    isValidObjectId sampleId = true ∧
    findBook [borrowedSample] sampleId = some borrowedSample ∧
    borrowedSample.borrower = some "u1" ∧
    (borrowBookCtrl ⟨[borrowedSample], []⟩ sampleId "u1" 0 "r1").1
      = ⟨[borrowedSample], []⟩ ∧
    ((borrowBookCtrl ⟨[borrowedSample], []⟩ sampleId "u1" 0 "r1").2
        = Outcome.unavailable ∨
      (borrowBookCtrl ⟨[borrowedSample], []⟩ sampleId "u1" 0 "r1").2
        = Outcome.alreadyBorrowed) := by
  have h := c1_borrow_by_recorded_borrower ⟨[borrowedSample], []⟩ sampleId "u1"
    0 "r1" borrowedSample (by decide) rfl rfl
  exact ⟨by decide, rfl, rfl, h.1, h.2.1⟩

/-- C10 (confirmed): only `getBookById` validates the identifier before
querying (responding 400 Invalid Book ID); for every malformed id, Update,
Delete, Borrow and Return run `findById` directly, whose cast failure is
caught as a 500 store error — never a 400 invalid-identifier nor a 404. -/
theorem c10_only_get_validates_id (s : LibState) (id : String)
    (inp : UpdateInput) (u : String) (now : Nat) (rid : String)
    (hid : isValidObjectId id = false) :
    getBookByIdCtrl s.books id = Outcome.invalidId ∧
    updateBookCtrl s id inp = (s, Outcome.storeError) ∧
    deleteBookCtrl s id = (s, Outcome.storeError) ∧
    borrowBookCtrl s id u now rid = (s, Outcome.storeError) ∧
    returnBookCtrl s id u now = (s, Outcome.storeError) := by
  refine ⟨?_, ?_, ?_, ?_, ?_⟩
  · rw [getBookByIdCtrl, if_pos (by simp [hid])]
  · rw [updateBookCtrl, if_pos (by simp [hid])]
  · rw [deleteBookCtrl, if_pos (by simp [hid])]
  · rw [borrowBookCtrl, if_pos (by simp [hid])]
  · rw [returnBookCtrl, if_pos (by simp [hid])]

/-- C10 (witness): the malformed id `"xyz"` against a store holding one book:
Get-by-id answers 400 Invalid Book ID, the four unvalidated operations answer
500. -/
theorem c10_witness :
    isValidObjectId "xyz" = false ∧
    getBookByIdCtrl [freeSample] "xyz" = Outcome.invalidId ∧
    (updateBookCtrl ⟨[freeSample], []⟩ "xyz"
        ⟨none, none, none, none, none, none, none, none⟩).2 = Outcome.storeError ∧
    (deleteBookCtrl ⟨[freeSample], []⟩ "xyz").2 = Outcome.storeError ∧
    (borrowBookCtrl ⟨[freeSample], []⟩ "xyz" "u1" 0 "r1").2 = Outcome.storeError ∧
    (returnBookCtrl ⟨[freeSample], []⟩ "xyz" "u1" 0).2 = Outcome.storeError := by
  have h := c10_only_get_validates_id ⟨[freeSample], []⟩ "xyz"
    ⟨none, none, none, none, none, none, none, none⟩ "u1" 0 "r1" (by decide)
  exact ⟨by decide, h.1, by rw [h.2.1], by rw [h.2.2.1], by rw [h.2.2.2.1],
    by rw [h.2.2.2.2]⟩

/-- The book stored by an Add that supplies `availableCopies = 7` with
`totalCopies = 2`. -/
def wideBook : Book :=
  { id := "b1", title := "X", author := "Y", category := "Z", isbn := "1",
    description := "", bookImage := none, totalCopies := 2,
    availableCopies := 7, status := "Available", borrower := none,
    borrowedAt := none, dueDate := none }

/-- C2 (counterexample to the claim as stated): an Add supplying
`availableCopies = 7` with `totalCopies = 2` completes successfully and stores
`availableCopies = 7 > 2 = totalCopies`; likewise a Return by the recorded
borrower of a book already at `availableCopies = totalCopies = 2` completes
successfully and leaves `availableCopies = 3 > 2 = totalCopies`. -/
theorem c2_counterexample :
    addBook ⟨some "X", some "Y", some "Z", some "1", none, some 7, some 2, none⟩
      "b1" = AddResult.created wideBook ∧
    ¬ (wideBook.availableCopies ≤ wideBook.totalCopies) ∧
    returnBook { freeSample with borrower := some "u1" } [] "u1" 0
      = ReturnResult.success { freeSample with availableCopies := 3 } [] 0
          "No fine applied" ∧
    ¬ (({ freeSample with availableCopies := 3 } : Book).availableCopies
        ≤ ({ freeSample with availableCopies := 3 } : Book).totalCopies) :=
  ⟨rfl, by decide, rfl, by decide⟩

/-- C2 (amended): `0 ≤ availableCopies ≤ totalCopies` holds
(a) after a successful Add whose supplied `totalCopies` is non-negative and
whose supplied `availableCopies`, when present and nonzero, lies between 0 and
`totalCopies` (a zero or omitted value defaults to `totalCopies`);
(b) after a successful Borrow from any state already satisfying the invariant;
(c) after a successful Return from a state satisfying the invariant with
`availableCopies` strictly below `totalCopies`. -/
theorem c2_invariant :
    (∀ (inp : AddInput) (newId : String) (b : Book) (t : Int),
      addBook inp newId = AddResult.created b →
      inp.totalCopies = some t →
      0 ≤ t →
      (∀ a : Int, inp.availableCopies = some a → a ≠ 0 → 0 ≤ a ∧ a ≤ t) →
      0 ≤ b.availableCopies ∧ b.availableCopies ≤ b.totalCopies) ∧
    (∀ (book : Book) (u : String) (now : Nat) (rid : String)
        (b : Book) (r : BorrowRec),
      borrowBook book u now rid = BorrowResult.success b r →
      0 ≤ book.availableCopies →
      book.availableCopies ≤ book.totalCopies →
      0 ≤ b.availableCopies ∧ b.availableCopies ≤ b.totalCopies) ∧
    (∀ (book : Book) (ledger : List BorrowRec) (u : String) (now : Nat)
        (b : Book) (l : List BorrowRec) (f : Int) (m : String),
      returnBook book ledger u now = ReturnResult.success b l f m →
      0 ≤ book.availableCopies →
      book.availableCopies < book.totalCopies →
      0 ≤ b.availableCopies ∧ b.availableCopies ≤ b.totalCopies) := by
  refine ⟨?_, ?_, ?_⟩
  · intro inp newId b t hadd htot ht hav
    rw [addBook] at hadd
    split at hadd
    · simp at hadd
    · simp only [AddResult.created.injEq] at hadd
      subst hadd
      simp only [htot, Option.getD_some]
      rcases hcase : inp.availableCopies with _ | a
      · simp [hcase, ht]
      · by_cases ha0 : a = 0
        · simp [hcase, ha0, ht]
        · have := hav a hcase ha0
          simp [hcase, ha0]
          omega
  · intro book u now rid b r hb h0 h1
    rw [borrowBook] at hb
    split at hb
    · simp at hb
    · split at hb
      · simp at hb
      · rename_i hc _
        simp only [BorrowResult.success.injEq] at hb
        obtain ⟨hb, -⟩ := hb
        subst hb
        push_neg at hc
        simp only []
        omega
  · intro book ledger u now b l f m hr h0 h1
    rw [returnBook] at hr
    split at hr
    · simp only [ReturnResult.success.injEq] at hr
      obtain ⟨hb, -, -, -⟩ := hr
      subst hb
      simp only []
      omega
    · simp at hr

/-- The book and ledger record produced by borrowing `freeSample` at time 0. -/
def borrowedFree : Book :=
  { freeSample with
    status := "Borrowed", borrower := some "u1",
    borrowedAt := some 0, dueDate := some sevenDaysMs, availableCopies := 1 }

/-- The ledger record created alongside `borrowedFree`. -/
def freeRec : BorrowRec :=
  { id := "r1", user := "u1", book := sampleId, borrowedAt := 0,
    dueDate := sevenDaysMs, returnedAt := none, fine := 0 }

/-- The book stored by an Add that supplies `availableCopies = 1` with
`totalCopies = 2`. -/
def narrowBook : Book :=
  { id := "b1", title := "X", author := "Y", category := "Z", isbn := "1",
    description := "", bookImage := none, totalCopies := 2,
    availableCopies := 1, status := "Available", borrower := none,
    borrowedAt := none, dueDate := none }

/-- C2 (witness): the amended invariant applied to a concrete Add
(`availableCopies = 1`, `totalCopies = 2`), a concrete Borrow of `freeSample`,
and a concrete Return of `borrowedFree`. -/
theorem c2_witness :
    (0 ≤ narrowBook.availableCopies ∧
      narrowBook.availableCopies ≤ narrowBook.totalCopies) ∧
    (0 ≤ borrowedFree.availableCopies ∧
      borrowedFree.availableCopies ≤ borrowedFree.totalCopies) ∧
    (0 ≤ freeSample.availableCopies ∧
      freeSample.availableCopies ≤ freeSample.totalCopies) := by
  refine ⟨c2_invariant.1
      ⟨some "X", some "Y", some "Z", some "1", none, some 1, some 2, none⟩
      "b1" narrowBook 2 rfl rfl (by decide) ?_,
    c2_invariant.2.1 freeSample "u1" 0 "r1" borrowedFree freeRec rfl
      (by decide) (by decide),
    c2_invariant.2.2 borrowedFree [freeRec] "u1" 5 freeSample
      [{ freeRec with returnedAt := some 5, fine := 0 }] 0 "No fine applied"
      rfl (by decide) (by decide)⟩
  intro a ha hne
  simp only [Option.some.injEq] at ha
  omega

/-- The book stored by an Add that supplies `availableCopies = 0` with
`totalCopies = 3`: the falsy `0` is replaced by `totalCopies`. -/
def defaultedBook : Book :=
  { id := "b1", title := "X", author := "Y", category := "Z", isbn := "1",
    description := "", bookImage := none, totalCopies := 3,
    availableCopies := 3, status := "Available", borrower := none,
    borrowedAt := none, dueDate := none }

/-- C3 (counterexample to the claim as stated): an Add supplying
`availableCopies = 0` with `totalCopies = 3` completes successfully but the
stored `availableCopies` is `3`, not the supplied `0`: `availableCopies ||
totalCopies` treats the supplied `0` as absent. -/
theorem c3_counterexample :
    addBook ⟨some "X", some "Y", some "Z", some "1", none, some 0, some 3, none⟩
      "b1" = AddResult.created defaultedBook ∧
    defaultedBook.availableCopies ≠ 0 :=
  ⟨rfl, by decide⟩

/-- C3 (amended): for every valid Add input, the stored `totalCopies` is the
supplied one, the stored `availableCopies` equals the supplied value whenever
one is supplied and nonzero (including any nonzero value distinct from
`totalCopies`), and equals `totalCopies` when `availableCopies` is omitted or
supplied as `0`. -/
theorem c3_add_available_copies (inp : AddInput) (newId : String) (b : Book)
    (t : Int)
    (hadd : addBook inp newId = AddResult.created b)
    (htot : inp.totalCopies = some t) :
    b.totalCopies = t ∧
    ((inp.availableCopies = none ∨ inp.availableCopies = some 0) →
      b.availableCopies = t) ∧
    (∀ a : Int, inp.availableCopies = some a → a ≠ 0 →
      b.availableCopies = a) := by
  rw [addBook] at hadd
  split at hadd
  · simp at hadd
  · simp only [AddResult.created.injEq] at hadd
    subst hadd
    refine ⟨?_, ?_, ?_⟩
    · simp [htot]
    · rintro (hc | hc) <;> simp [hc, htot]
    · intro a hc hne
      simp [hc, hne, htot]

/-- C3 (witness): the amended theorem applied to an Add supplying
`availableCopies = 4` with `totalCopies = 2` (stored as supplied, although it
differs from `totalCopies`), and to an Add omitting `availableCopies` with
`totalCopies = 3` (stored as `totalCopies`). -/
theorem c3_witness :
    wideBook.totalCopies = 2 ∧
    wideBook.availableCopies = 7 ∧
    defaultedBook.totalCopies = 3 ∧
    defaultedBook.availableCopies = 3 := by
  have h1 := c3_add_available_copies
    ⟨some "X", some "Y", some "Z", some "1", none, some 7, some 2, none⟩
    "b1" wideBook 2 rfl rfl
  have h2 := c3_add_available_copies
    ⟨some "X", some "Y", some "Z", some "1", none, some 0, some 3, none⟩
    "b1" defaultedBook 3 rfl rfl
  exact ⟨h1.1, h1.2.2 7 rfl (by decide), h2.1, h2.2.1 (Or.inr rfl)⟩

/-- C4 (confirmed): on a Return by the recorded borrower of a book with due
date `d`: the fine is 0 when `now ≤ d` (so a return exactly at the due date
pays nothing); when `d < now` it is the ceiling of the lateness in days times
5 — in particular 5 when returning 1 second (1000 ms) late and 50 when
returning exactly 10 days late; the response message is the formatted fine
string when the fine is positive and "No fine applied" otherwise. -/
theorem c4_return_fine (book : Book) (ledger : List BorrowRec) (u : String)
    (d now : Nat) (b : Book) (l : List BorrowRec) (f : Int) (m : String)
    (hdue : book.dueDate = some d)
    (hret : returnBook book ledger u now = ReturnResult.success b l f m) :
    (now ≤ d → f = 0) ∧
    (d < now → f = (((now - d) ⌈/⌉ msPerDay : ℕ) : ℤ) * 5) ∧
    (now = d + 1000 → f = 5) ∧
    (now = d + 10 * msPerDay → f = 50) ∧
    (0 < f → m = s!"₹{f} has been applied for late return") ∧
    (f = 0 → m = "No fine applied") := by
  rw [returnBook] at hret
  split at hret
  · simp only [ReturnResult.success.injEq] at hret
    obtain ⟨-, -, hf, hm⟩ := hret
    subst hf
    subst hm
    rw [hdue]
    have hday : 1 ≤ msPerDay := by norm_num [msPerDay]
    refine ⟨?_, ?_, ?_, ?_, ?_, ?_⟩
    · intro h
      rw [computeFine, if_neg (by omega)]
    · intro h
      rw [computeFine, if_pos h, Nat.ceilDiv_eq_add_pred_div]
      congr 2
    · intro h
      subst h
      rw [computeFine, if_pos (by omega)]
      norm_num [msPerDay]
    · intro h
      subst h
      rw [computeFine, if_pos (by omega)]
      norm_num [msPerDay]
    · intro h
      rw [if_pos h]
    · intro h
      rw [if_neg (by omega)]
  · simp at hret

/-- The book document after `borrowedSample` is returned. -/
def resetSample : Book :=
  { borrowedSample with
    status := "Available", borrower := none, borrowedAt := none,
    dueDate := none, availableCopies := 2 }

/-- C4 (witness): returning `borrowedSample` (due at 100) at time 1100 —
exactly 1000 ms late — yields the one-day ceiling fine of 5 and the formatted
message. -/
theorem c4_witness :
    ((5 : ℤ) = (((1100 - 100) ⌈/⌉ msPerDay : ℕ) : ℤ) * 5) ∧
    ((5 : ℤ) = 5) ∧
    ("₹5 has been applied for late return"
      = s!"₹{(5 : ℤ)} has been applied for late return") := by
  have h := c4_return_fine borrowedSample [] "u1" 100 1100 resetSample [] 5
    "₹5 has been applied for late return" rfl rfl
  exact ⟨h.2.1 (by norm_num), h.2.2.1 rfl, h.2.2.2.2.1 (by norm_num)⟩

/-- C5 (code bug): user `u1` has one Borrow record, whose referenced book
`b1` has been deleted from the Book collection.  The history query does not
degrade gracefully: `populate` yields a null book, the mapping dereferences
`record.book._id`, and the resulting TypeError is caught and surfaced as a
500 — the user's history is not returned. -/
theorem c5_missing_book_errors :
    findBook [] "b1" = none ∧
    getUserHistory
      [{ id := "r1", user := "u1", book := "b1", borrowedAt := 0,
         dueDate := 0, returnedAt := none, fine := 0 }] [] "u1"
      = Except.error "TypeError: Cannot read properties of null" :=
  ⟨rfl, rfl⟩

/-- A stored book with a non-empty description, to exercise Update. -/
def oldDescBook : Book := { freeSample with description := "old" }

/-- C6 (counterexample to the claim as stated): updating `oldDescBook` with
`description` provided as the empty string overwrites the stored description
— `description` uses presence (`!== undefined`) semantics, not truthiness. -/
theorem c6_counterexample :
    (applyUpdate oldDescBook
        ⟨none, none, none, none, some "", none, none, none⟩).description = "" ∧
    oldDescBook.description = "old" ∧
    ("" : String) ≠ "old" :=
  ⟨rfl, rfl, by decide⟩

/-- C6 (amended): in an Update, `title`/`author`/`category`/`isbn` are
overwritten only when provided as a truthy (non-empty) value, so an empty
string does not overwrite them; `description` is overwritten whenever it is
provided, including as the empty string; `availableCopies`/`totalCopies` are
overwritten whenever provided, including as 0; absent fields are left
unchanged. -/
theorem c6_update_field_semantics (book : Book) (inp : UpdateInput) :
    ((inp.title = none → (applyUpdate book inp).title = book.title) ∧
     (inp.title = some "" → (applyUpdate book inp).title = book.title) ∧
     (∀ v : String, inp.title = some v → v ≠ "" →
       (applyUpdate book inp).title = v)) ∧
    ((inp.author = none → (applyUpdate book inp).author = book.author) ∧
     (inp.author = some "" → (applyUpdate book inp).author = book.author) ∧
     (∀ v : String, inp.author = some v → v ≠ "" →
       (applyUpdate book inp).author = v)) ∧
    ((inp.category = none → (applyUpdate book inp).category = book.category) ∧
     (inp.category = some "" → (applyUpdate book inp).category = book.category) ∧
     (∀ v : String, inp.category = some v → v ≠ "" →
       (applyUpdate book inp).category = v)) ∧
    ((inp.isbn = none → (applyUpdate book inp).isbn = book.isbn) ∧
     (inp.isbn = some "" → (applyUpdate book inp).isbn = book.isbn) ∧
     (∀ v : String, inp.isbn = some v → v ≠ "" →
       (applyUpdate book inp).isbn = v)) ∧
    ((inp.description = none →
       (applyUpdate book inp).description = book.description) ∧
     (∀ v : String, inp.description = some v →
       (applyUpdate book inp).description = v)) ∧
    ((inp.availableCopies = none →
       (applyUpdate book inp).availableCopies = book.availableCopies) ∧
     (∀ n : Int, inp.availableCopies = some n →
       (applyUpdate book inp).availableCopies = n)) ∧
    ((inp.totalCopies = none →
       (applyUpdate book inp).totalCopies = book.totalCopies) ∧
     (∀ n : Int, inp.totalCopies = some n →
       (applyUpdate book inp).totalCopies = n)) := by
  refine ⟨⟨?_, ?_, ?_⟩, ⟨?_, ?_, ?_⟩, ⟨?_, ?_, ?_⟩, ⟨?_, ?_, ?_⟩,
    ⟨?_, ?_⟩, ⟨?_, ?_⟩, ⟨?_, ?_⟩⟩
  · intro h; simp [applyUpdate, orKeepStr, h]
  · intro h; simp [applyUpdate, orKeepStr, h]
  · intro v h hne; simp [applyUpdate, orKeepStr, h, hne]
  · intro h; simp [applyUpdate, orKeepStr, h]
  · intro h; simp [applyUpdate, orKeepStr, h]
  · intro v h hne; simp [applyUpdate, orKeepStr, h, hne]
  · intro h; simp [applyUpdate, orKeepStr, h]
  · intro h; simp [applyUpdate, orKeepStr, h]
  · intro v h hne; simp [applyUpdate, orKeepStr, h, hne]
  · intro h; simp [applyUpdate, orKeepStr, h]
  · intro h; simp [applyUpdate, orKeepStr, h]
  · intro v h hne; simp [applyUpdate, orKeepStr, h, hne]
  · intro h; simp [applyUpdate, h]
  · intro v h; simp [applyUpdate, h]
  · intro h; simp [applyUpdate, h]
  · intro n h; simp [applyUpdate, h]
  · intro h; simp [applyUpdate, h]
  · intro n h; simp [applyUpdate, h]

/-- C6 (witness): a mixed update of `oldDescBook` — empty-string `title` is
ignored, truthy `author` overwrites, empty-string `description` overwrites,
`availableCopies` provided as 0 overwrites, absent `totalCopies` is kept. -/
theorem c6_witness :
    (applyUpdate oldDescBook
        ⟨some "", some "NewA", none, none, some "", some 0, none, none⟩).title
      = oldDescBook.title ∧
    (applyUpdate oldDescBook
        ⟨some "", some "NewA", none, none, some "", some 0, none, none⟩).author
      = "NewA" ∧
    (applyUpdate oldDescBook
        ⟨some "", some "NewA", none, none, some "", some 0, none, none⟩).description
      = "" ∧
    (applyUpdate oldDescBook
        ⟨some "", some "NewA", none, none, some "", some 0, none, none⟩).availableCopies
      = 0 ∧
    (applyUpdate oldDescBook
        ⟨some "", some "NewA", none, none, some "", some 0, none, none⟩).totalCopies
      = oldDescBook.totalCopies := by
  have h := c6_update_field_semantics oldDescBook
    ⟨some "", some "NewA", none, none, some "", some 0, none, none⟩
  exact ⟨h.1.2.1 rfl, h.2.1.2.2 "NewA" rfl (by decide),
    h.2.2.2.2.1.2 "" rfl, h.2.2.2.2.2.1.2 0 rfl, h.2.2.2.2.2.2.1 rfl⟩

/-- C7 (confirmed): a Return by the recorded borrower never fails, and when
the ledger holds no open Borrow record for the (book, user) pair the
Book-side reset still proceeds — status becomes Available, the borrow fields
are cleared, `availableCopies` is incremented — while the ledger is left
completely unchanged (a record's `returnedAt`/`fine` are set only when a
matching open record exists). -/
theorem c7_return_without_open_record (book : Book) (ledger : List BorrowRec)
    (u : String) (now : Nat)
    (hbor : book.borrower = some u) :
    returnBook book ledger u now ≠ ReturnResult.notBorrowedByUser ∧
    (hasOpenRecord ledger book.id u = false →
      returnBook book ledger u now =
        ReturnResult.success
          { book with
            status := "Available", borrower := none, borrowedAt := none,
            dueDate := none, availableCopies := book.availableCopies + 1 }
          ledger
          (computeFine book.dueDate now)
          (if computeFine book.dueDate now > 0 then
            s!"₹{computeFine book.dueDate now} has been applied for late return"
           else "No fine applied")) := by
  have hbis : borrowerIs book u = true := by simp [borrowerIs, hbor]
  constructor
  · rw [returnBook, if_pos hbis]
    simp
  · intro hnone
    rw [returnBook, if_pos hbis]
    simp only [closeOpenRecord_no_match ledger book.id u now
      (computeFine book.dueDate now) hnone]

/-- C7 (witness): returning `borrowedSample` (borrowed by `u1`) at time 0
against an empty ledger: the book is reset and the ledger stays empty. -/
theorem c7_witness :
    borrowedSample.borrower = some "u1" ∧
    hasOpenRecord [] borrowedSample.id "u1" = false ∧
    returnBook borrowedSample [] "u1" 0 =
      ReturnResult.success
        { borrowedSample with
          status := "Available", borrower := none, borrowedAt := none,
          dueDate := none,
          availableCopies := borrowedSample.availableCopies + 1 }
        [] (computeFine borrowedSample.dueDate 0)
        (if computeFine borrowedSample.dueDate 0 > 0 then
          s!"₹{computeFine borrowedSample.dueDate 0} has been applied for late return"
         else "No fine applied") := by
  have h := c7_return_without_open_record borrowedSample [] "u1" 0 rfl
  exact ⟨rfl, rfl, h.2 rfl⟩

/-- Characterisation of `(T + (l - 1)) / l` as the ceiling of `T / l`: it is
the least number of pages whose total capacity covers `T` items. -/
theorem pages_cover_and_least (T l : Nat) (hl : 1 ≤ l) :
    T ≤ ((T + (l - 1)) / l) * l ∧
    ∀ n : Nat, T ≤ n * l → (T + (l - 1)) / l ≤ n := by
  constructor
  · have hdm := Nat.div_add_mod (T + (l - 1)) l
    have hmlt : (T + (l - 1)) % l < l := Nat.mod_lt _ (by omega)
    rw [Nat.mul_comm]
    generalize hx : l * ((T + (l - 1)) / l) = x at hdm
    omega
  · intro n hn
    rw [Nat.div_le_iff_le_mul_add_pred (by omega)]
    have hnl : T ≤ l * n := le_of_le_of_eq hn (Nat.mul_comm n l)
    omega

/-- C8 (confirmed): every List/Search response reports `totalBooks` equal to
the number of matching books, `currentPage` equal to the requested page
(default 1), `totalPages` equal to the ceiling of `totalBooks / limit` (limit
default 10) — characterised as the least page count whose capacity covers all
matches — and the page slice `skip = (page-1)*limit`, `take limit`; a page
beyond the last one yields an empty slice with the same totals. -/
theorem c8_pagination (db : List Book) (q : BooksQuery)
    (_hp : 1 ≤ q.page.getD 1) (hl : 1 ≤ q.limit.getD 10) :
    (getBooks db q).totalBooks = (db.filter (matchesQuery q)).length ∧
    (getBooks db q).currentPage = q.page.getD 1 ∧
    (getBooks db q).totalBooks
      ≤ (getBooks db q).totalPages * q.limit.getD 10 ∧
    (∀ n : Nat, (getBooks db q).totalBooks ≤ n * q.limit.getD 10 →
      (getBooks db q).totalPages ≤ n) ∧
    (getBooks db q).books
      = ((db.filter (matchesQuery q)).drop
          ((q.page.getD 1 - 1) * q.limit.getD 10)).take (q.limit.getD 10) ∧
    ((getBooks db q).totalPages < q.page.getD 1 →
      (getBooks db q).books = []) := by
  have hchar := pages_cover_and_least (db.filter (matchesQuery q)).length
    (q.limit.getD 10) hl
  refine ⟨rfl, rfl, hchar.1, hchar.2, rfl, ?_⟩
  · intro hbeyond
    have hcap : (db.filter (matchesQuery q)).length
        ≤ (q.page.getD 1 - 1) * q.limit.getD 10 := by
      calc (db.filter (matchesQuery q)).length
          ≤ ((db.filter (matchesQuery q)).length + (q.limit.getD 10 - 1))
              / q.limit.getD 10 * q.limit.getD 10 := hchar.1
        _ ≤ (q.page.getD 1 - 1) * q.limit.getD 10 :=
            Nat.mul_le_mul_right _ (by exact Nat.le_sub_one_of_lt hbeyond)
    show ((db.filter (matchesQuery q)).drop
        ((q.page.getD 1 - 1) * q.limit.getD 10)).take (q.limit.getD 10) = []
    rw [List.drop_eq_nil_of_le hcap, List.take_nil]

/-- C8 (witness): a store of three books, no filters, `page = 2`,
`limit = 2`: two total pages, and page 2 holds the single remaining book;
and with `page = 5` the slice is empty while the totals are unchanged. -/
theorem c8_witness :
    (getBooks [freeSample, narrowBook, wideBook]
        ⟨none, none, none, none, some 2, some 2⟩).totalBooks = 3 ∧
    (getBooks [freeSample, narrowBook, wideBook]
        ⟨none, none, none, none, some 2, some 2⟩).currentPage = 2 ∧
    (getBooks [freeSample, narrowBook, wideBook]
        ⟨none, none, none, none, some 2, some 2⟩).totalPages = 2 ∧
    (getBooks [freeSample, narrowBook, wideBook]
        ⟨none, none, none, none, some 2, some 2⟩).books = [wideBook] ∧
    (getBooks [freeSample, narrowBook, wideBook]
        ⟨none, none, none, none, some 5, some 2⟩).books = [] ∧
    (getBooks [freeSample, narrowBook, wideBook]
        ⟨none, none, none, none, some 5, some 2⟩).totalBooks = 3 := by
  have h := c8_pagination [freeSample, narrowBook, wideBook]
    ⟨none, none, none, none, some 5, some 2⟩ (by decide) (by decide)
  refine ⟨rfl, rfl, rfl, rfl, h.2.2.2.2.2 (by decide), rfl⟩

/-- C9 (confirmed): a successful Borrow followed by a successful Return by
the same user restores `availableCopies` to its pre-borrow value and clears
`status` (back to Available), `borrower`, `borrowedAt` and `dueDate` on the
Book. -/
theorem c9_borrow_return_roundtrip (book : Book) (u : String) (now : Nat)
    (rid : String) (b1 : Book) (r : BorrowRec) (ledger : List BorrowRec)
    (now2 : Nat) (b2 : Book) (l2 : List BorrowRec) (f : Int) (m : String)
    (hborrow : borrowBook book u now rid = BorrowResult.success b1 r)
    (hreturn : returnBook b1 ledger u now2 = ReturnResult.success b2 l2 f m) :
    b2.availableCopies = book.availableCopies ∧
    b2.status = "Available" ∧ b2.borrower = none ∧
    b2.borrowedAt = none ∧ b2.dueDate = none := by
  rw [borrowBook] at hborrow
  split at hborrow
  · simp at hborrow
  · split at hborrow
    · simp at hborrow
    · simp only [BorrowResult.success.injEq] at hborrow
      obtain ⟨hb1, -⟩ := hborrow
      subst hb1
      rw [returnBook] at hreturn
      split at hreturn
      · simp only [ReturnResult.success.injEq] at hreturn
        obtain ⟨hb2, -, -, -⟩ := hreturn
        subst hb2
        refine ⟨?_, rfl, rfl, rfl, rfl⟩
        simp only []
        omega
      · simp at hreturn

/-- C9 (witness): borrowing `freeSample` at time 0 and returning it at time 5
restores the original document exactly. -/
theorem c9_witness :
    freeSample.availableCopies = freeSample.availableCopies ∧
    freeSample.status = "Available" ∧ freeSample.borrower = none ∧
    freeSample.borrowedAt = none ∧ freeSample.dueDate = none :=
  c9_borrow_return_roundtrip freeSample "u1" 0 "r1" borrowedFree freeRec
    [freeRec] 5 freeSample [{ freeRec with returnedAt := some 5, fine := 0 }]
    0 "No fine applied" rfl rfl
